/-
Verification of the fedora-nightly-azure-image-validation pipeline.

Shallow embedding of the orchestration code in
`fedora_cloud_tests/azure.py`, `fedora_cloud_tests/trigger_lisa.py` and the
message schema in
`fedora_cloud_tests_messages/fedora_cloud_tests_messages/publish.py`.

Python dynamic values are modelled by `PyVal`; a message body is either a
dictionary (`Body.dict`) or some non-mapping object (`Body.other`).  Python
exceptions that the code can raise or catch are modelled by `PyExc`; a
function that may raise is embedded with an `Except PyExc` result.  The
child-process interaction of the test invoker is modelled by a `ProcResult`
parameter describing how the spawned process behaved.
-/
import Mathlib

namespace FedoraCloudTests

/-! ## Python value model -/

/-- A dynamically typed Python value as it appears in message bodies and
config dictionaries: a string, an integer, or `None`. -/
inductive PyVal where
  | str (s : String)
  | int (n : Int)
  | none
deriving DecidableEq, Repr

/-- A Python message body: either a dictionary with string keys, or some
non-mapping object (e.g. a plain string), for which attribute/`get` access
fails. -/
inductive Body where
  | dict (entries : List (String × PyVal))
  | other
deriving DecidableEq, Repr

/-- An inbound fedora-messaging message: a topic and a body. -/
structure Msg where
  topic : String
  body : Body
deriving DecidableEq, Repr

/-- `d.get(k)` on a Python dict: the stored value, or `None` when the key is
absent. -/
def dictGet (entries : List (String × PyVal)) (k : String) : PyVal :=
  match entries.lookup k with
  | Option.some v => v
  | Option.none => PyVal.none

/-- Python truthiness of a `PyVal`: empty string, `0` and `None` are falsy. -/
def truthy : PyVal → Bool
  | .str s => !(s == "")
  | .int n => !(n == 0)
  | .none => false

/-- `isinstance(v, str)` on a `PyVal`. -/
def PyVal.isStr : PyVal → Bool
  | .str _ => true
  | _ => false

/-- Python `str()` / f-string rendering of a `PyVal`. -/
def pyStr : PyVal → String
  | .str s => s
  | .int n => toString n
  | .none => "None"

/-- Split a character list at every occurrence of `c`.  Mirrors Python's
`str.split(sep)` for a one-character separator: `""` yields `[""]`, and
consecutive separators yield empty segments. -/
def splitCharList (c : Char) : List Char → List (List Char)
  | [] => [[]]
  | x :: xs =>
    match splitCharList c xs with
    | [] => if x = c then [[], []] else [[x]]
    | y :: ys => if x = c then [] :: y :: ys else (x :: y) :: ys

/-- Python `s.split("/")`. -/
def pySplit (s : String) : List String :=
  (splitCharList '/' s.data).map fun l => String.mk l

/-! ## Image identifier resolver (`azure.py`) -/

/-- `AzurePublishedConsumer.SUPPORTED_FEDORA_VERSIONS`. -/
def SUPPORTED_FEDORA_VERSIONS : List String :=
  ["Fedora-Cloud-Rawhide-x64",
   "Fedora-Cloud-41-x64",
   "Fedora-Cloud-41-Arm64",
   "Fedora-Cloud-Rawhide-Arm64",
   "Fedora-Cloud-42-x64",
   "Fedora-Cloud-42-Arm64"]

/-- `AzurePublishedConsumer._get_image_definition_name`: returns the
`image_definition_name` body entry when it is a string, else `None`.  A
non-mapping body raises `AttributeError`, which the method catches and maps
to `None`. -/
def get_image_definition_name (m : Msg) : Option String :=
  match m.body with
  | .dict es =>
    match dictGet es "image_definition_name" with
    | .str s => Option.some s
    | _ => Option.none
  | .other => Option.none

/-- `AzurePublishedConsumer.get_community_gallery_image`: resolves a message
to `"<region>/<parts[2]>/<image_definition_name>/<image_version_name>"`, or
`None` when the body is not a dict, the image definition name is not
supported, a required field is falsy, the resource id is not a string
(`AttributeError` on `.split`, caught), or it has fewer than 3
slash-delimited parts. -/
def get_community_gallery_image (region : String) (m : Msg) : Option String :=
  match m.body with
  | .other => Option.none
  | .dict es =>
    match get_image_definition_name m with
    | Option.none => Option.none
    | Option.some idn =>
      if idn ∉ SUPPORTED_FEDORA_VERSIONS then Option.none
      else
        let ivn := dictGet es "image_version_name"
        let irid := dictGet es "image_resource_id"
        if !(truthy (.str idn) && truthy ivn && truthy irid) then Option.none
        else
          match irid with
          | .str rid =>
            let parts := pySplit rid
            if parts.length < 3 then Option.none
            else Option.some
              (region ++ "/" ++ parts.getD 2 "" ++ "/" ++ idn ++ "/" ++ pyStr ivn)
          | _ => Option.none

/-! ## XML report model and extractor (`azure.py`) -/

/-- An XML element: tag, attribute dictionary, and child elements.  Models
the `xml.etree.ElementTree` elements that `_parse_test_results` works on. -/
inductive XmlElem where
  | mk (tag : String) (attrib : List (String × String)) (children : List XmlElem)

/-- The element's tag. -/
def XmlElem.tag : XmlElem → String
  | .mk t _ _ => t

/-- The element's attribute dictionary. -/
def XmlElem.attrib : XmlElem → List (String × String)
  | .mk _ a _ => a

/-- The element's direct children. -/
def XmlElem.children : XmlElem → List XmlElem
  | .mk _ _ c => c

/-- `elem.findall(t)`: all direct children with the given tag. -/
def XmlElem.findall (e : XmlElem) (t : String) : List XmlElem :=
  e.children.filter fun c => c.tag == t

/-- `elem.find(t)`: the first direct child with the given tag, if any. -/
def XmlElem.findChild (e : XmlElem) (t : String) : Option XmlElem :=
  e.children.find? fun c => c.tag == t

/-- `elem.attrib.get(k, d)`. -/
def XmlElem.attrGetD (e : XmlElem) (k d : String) : String :=
  match e.attrib.lookup k with
  | Option.some v => v
  | Option.none => d

/-- `elem.attrib.get(k)` (default `None`). -/
def XmlElem.attrGet (e : XmlElem) (k : String) : Option String :=
  e.attrib.lookup k

/-- `cs` is non-empty and consists of digits only (Python `str.isdigit`). -/
def isDigits (cs : List Char) : Bool :=
  !cs.isEmpty && cs.all (·.isDigit)

/-- `int(v) if v.isdigit() else 0`: the counter-parsing expression used by
`_extract_test_counters`. -/
def pyCounter (v : String) : Nat :=
  if isDigits v.data then v.data.foldl (fun a c => a * 10 + (c.toNat - '0'.toNat)) 0
  else 0

/-- The four counters tracked by `_extract_test_counters`. -/
structure Counters where
  total_tests : Nat
  failures : Nat
  errors : Nat
  skipped : Nat
deriving DecidableEq, Repr

/-- Read the four counter attributes (`tests`, `failures`, `errors`,
`skipped`) of one element, missing attributes defaulting to `"0"`. -/
def countersOfElem (e : XmlElem) : Counters :=
  { total_tests := pyCounter (e.attrGetD "tests" "0")
    failures := pyCounter (e.attrGetD "failures" "0")
    errors := pyCounter (e.attrGetD "errors" "0")
    skipped := pyCounter (e.attrGetD "skipped" "0") }

/-- Componentwise sum, modelling the `counters[key] += ...` loop. -/
def Counters.add (a b : Counters) : Counters :=
  ⟨a.total_tests + b.total_tests, a.failures + b.failures,
   a.errors + b.errors, a.skipped + b.skipped⟩

/-- `AzurePublishedConsumer._extract_test_counters`: rejects roots other
than `testsuite`/`testsuites`; reads the root's counter attributes; when the
root reported 0 total tests and is a `testsuites` collection, adds the
counters of each direct `testsuite` child onto the root's values. -/
def extract_test_counters (root : XmlElem) : Option Counters :=
  if !(root.tag == "testsuite" || root.tag == "testsuites") then Option.none
  else
    let c := countersOfElem root
    if c.total_tests == 0 && !(root.tag == "testsuite") then
      Option.some ((root.findall "testsuite").foldl
        (fun acc s => acc.add (countersOfElem s)) c)
    else Option.some c

/-- Status of one test case, as classified by `_extract_test_details`. -/
inductive TestStatus where
  | passed | failed | skipped
deriving DecidableEq, Repr

/-- The `if/elif` classification of one `testcase` element: a `failure` or
`error` child means failed, else a `skipped` child means skipped, else
passed. -/
def classifyCase (tc : XmlElem) : TestStatus :=
  if (tc.findChild "failure").isSome then .failed
  else if (tc.findChild "error").isSome then .failed
  else if (tc.findChild "skipped").isSome then .skipped
  else .passed

/-- Python f-string rendering of an optional attribute (`None` when the
attribute is absent). -/
def pyAttrStr : Option String → String
  | Option.some s => s
  | Option.none => "None"

/-- `f"{suite_name}.{test_name}"`, the test identifier. -/
def testIdentifier (suite tc : XmlElem) : String :=
  pyAttrStr (suite.attrGet "name") ++ "." ++ pyAttrStr (tc.attrGet "name")

/-- The three per-status lists of test identifiers built by
`_extract_test_details`. -/
structure TestDetails where
  passed : List String
  failed : List String
  skipped : List String
deriving DecidableEq, Repr

/-- One iteration of the inner loop of `_extract_test_details`: append the
test identifier to the list selected by the `if/elif` chain. -/
def detailsStep (suite : XmlElem) (acc : TestDetails) (tc : XmlElem) : TestDetails :=
  let ident := testIdentifier suite tc
  if (tc.findChild "failure").isSome then { acc with failed := acc.failed ++ [ident] }
  else if (tc.findChild "error").isSome then { acc with failed := acc.failed ++ [ident] }
  else if (tc.findChild "skipped").isSome then { acc with skipped := acc.skipped ++ [ident] }
  else { acc with passed := acc.passed ++ [ident] }

/-- `root.findall("testsuite") if root.tag == "testsuites" else [root]`. -/
def suitesOf (root : XmlElem) : List XmlElem :=
  if root.tag == "testsuites" then root.findall "testsuite" else [root]

/-- `AzurePublishedConsumer._extract_test_details`: iterate over test suites
and test cases, appending each identifier to the list for its status. -/
def extract_test_details (root : XmlElem) : TestDetails :=
  (suitesOf root).foldl
    (fun acc suite => (suite.findall "testcase").foldl (detailsStep suite) acc)
    ⟨[], [], []⟩

/-- The final results dictionary assembled by `_calculate_final_results`
(with the test-name lists, which the parsing pipeline always supplies). -/
structure FinalResults where
  total_tests : Nat
  passed : Int
  failed : Nat
  skipped : Nat
  errors : Nat
  failed_test_names : List String
  skipped_test_names : List String
  passed_test_names : List String
deriving DecidableEq, Repr

/-- `AzurePublishedConsumer._calculate_final_results`:
`passed = max(0, total_tests - (failures + errors) - skipped)`, the other
counts copied from the counters, the name lists copied from the details. -/
def calculate_final_results (c : Counters) (d : TestDetails) : FinalResults :=
  { total_tests := c.total_tests
    passed := max 0 ((c.total_tests : Int) - ((c.failures + c.errors : Nat) : Int) - (c.skipped : Int))
    failed := c.failures
    skipped := c.skipped
    errors := c.errors
    failed_test_names := d.failed
    skipped_test_names := d.skipped
    passed_test_names := d.passed }

/-- The document-level part of `AzurePublishedConsumer._parse_test_results`,
after the report file has been located and parsed into `root`: extract the
counters (`None` aborts), extract the details, and combine them. -/
def parse_test_results (root : XmlElem) : Option FinalResults :=
  match extract_test_counters root with
  | Option.none => Option.none
  | Option.some c => Option.some (calculate_final_results c (extract_test_details root))

/-- All test cases of the document with their identifiers and classified
statuses, in document order. -/
def docClassified (root : XmlElem) : List (String × TestStatus) :=
  (suitesOf root).flatMap fun s =>
    (s.findall "testcase").map fun tc => (testIdentifier s tc, classifyCase tc)

/-- All test identifiers of the document, in document order. -/
def allIdentifiers (root : XmlElem) : List String :=
  (docClassified root).map Prod.fst

/-- Number of the document's test cases classified with status `st`. -/
def statusCount (root : XmlElem) (st : TestStatus) : Nat :=
  (docClassified root).countP fun x => x.2 == st

/-! ## Test invoker (`trigger_lisa.py`) -/

/-- Behaviour of the spawned LISA child process, as observed by
`trigger_lisa`: either some exception was raised during spawn / output
streaming / wait, or the process ran and exited with a return code. -/
inductive ProcResult where
  | raised
  | exited (code : Int)
deriving DecidableEq, Repr

/-- Result of one `LisaRunner.trigger_lisa` call: the returned boolean, the
error-path log message (verbatim format strings from the source), and the
command handed to `asyncio.create_subprocess_exec` (`none` when execution
never reached the spawn). -/
structure LisaRun where
  ok : Bool
  logs : List String
  spawnAttempt : Option (List String)
deriving DecidableEq, Repr

/-- The LISA command line built by `trigger_lisa`: fixed runbook, tier and
test-case selectors, the four `-v key:value` variables, and the optional
`-l`/`-i` flags added only when `log_path`/`run_name` are truthy. -/
def lisaCommand (region community_gallery_image : String)
    (cfg : List (String × PyVal)) : List String :=
  let vars :=
    ["region:" ++ region,
     "community_gallery_image:" ++ community_gallery_image,
     "subscription_id:" ++ pyStr (dictGet cfg "subscription"),
     "admin_private_key_file:" ++ pyStr (dictGet cfg "private_key")]
  let command :=
    ["lisa", "-r", "microsoft/runbook/azure_fedora.yml",
     "-v", "tier:1", "-v", "test_case_name:verify_boot_error_fail_warnings"]
    ++ vars.flatMap fun v => ["-v", v]
  let command :=
    if truthy (dictGet cfg "log_path") then
      command ++ ["-l", pyStr (dictGet cfg "log_path")]
    else command
  if truthy (dictGet cfg "run_name") then
    command ++ ["-i", pyStr (dictGet cfg "run_name")]
  else command

/-- `LisaRunner.trigger_lisa` (`fedora_cloud_tests/trigger_lisa.py`):
validates `region`, `community_gallery_image` and the `config` dict
(returning `False` with a field-specific log message before any spawn),
builds the command, spawns the process, and returns `True` exactly when the
process exits with return code 0; any exception inside the `try` block is
caught and converted to `False`. -/
def trigger_lisa (region community_gallery_image : PyVal) (config : Body)
    (proc : List String → ProcResult) : LisaRun :=
  if !(truthy region && region.isStr) then
    ⟨false, ["Invalid region parameter: must be a non-empty string"], Option.none⟩
  else if !(truthy community_gallery_image && community_gallery_image.isStr) then
    ⟨false, ["Invalid community_gallery_image parameter: must be a non-empty string"],
     Option.none⟩
  else
    match config with
    | .other => ⟨false, ["Invalid config parameter: must be a dictionary"], Option.none⟩
    | .dict cfg =>
      if !truthy (dictGet cfg "subscription") then
        ⟨false, ["Missing required parameter: subscription"], Option.none⟩
      else if !truthy (dictGet cfg "private_key") then
        ⟨false, ["Missing required parameter: private_key"], Option.none⟩
      else
        let command := lisaCommand (pyStr region) (pyStr community_gallery_image) cfg
        match proc command with
        | .raised =>
          ⟨false, ["An error occurred while running the tests: %s"], Option.some command⟩
        | .exited code =>
          if code == 0 then
            ⟨true, ["LISA test completed successfully"], Option.some command⟩
          else
            ⟨false, ["LISA test failed with return code: %d"], Option.some command⟩

/-! ## Result publisher (`azure.py` + message schema) -/

/-- The Python exception classes relevant to `publish_test_results`: the
three caught groups (`ValidationError`; `PublishTimeout`/
`ConnectionException`; `OSError`/`KeyError`/`TypeError`), plus
`AttributeError` (raised by `.get` on a non-mapping body) and
`RuntimeError` standing for any exception class outside the handlers. -/
inductive PyExc where
  | validationError
  | publishTimeout
  | connectionException
  | osError
  | keyError
  | typeError
  | attributeError
  | runtimeError
deriving DecidableEq, Repr

/-- JSON values, for message bodies checked against the schema. -/
inductive Json where
  | str (s : String)
  | int (n : Int)
  | null
  | arr (xs : List Json)
  | obj (fields : List (String × Json))

/-- Conversion of a body entry to its JSON form. -/
def pyValToJson : PyVal → Json
  | .str s => .str s
  | .int n => .int n
  | .none => .null

/-- `AzurePublishedConsumer._build_result_message_body`: copies the identity
fields from the original message body (using the definition name as
`image_id`) and attaches the three test-name lists as JSON string arrays. -/
def build_result_message_body (es : List (String × PyVal))
    (test_results : FinalResults) : List (String × Json) :=
  [("architecture", pyValToJson (dictGet es "architecture")),
   ("compose_id", pyValToJson (dictGet es "compose_id")),
   ("image_id", pyValToJson (dictGet es "image_definition_name")),
   ("image_definition_name", pyValToJson (dictGet es "image_definition_name")),
   ("image_resource_id", pyValToJson (dictGet es "image_resource_id")),
   ("list_of_failed_tests", .arr (test_results.failed_test_names.map .str)),
   ("list_of_skipped_tests", .arr (test_results.skipped_test_names.map .str)),
   ("list_of_passed_tests", .arr (test_results.passed_test_names.map .str))]

/-- Whether a JSON value is a string. -/
def Json.isStr : Json → Bool
  | .str _ => true
  | _ => false

/-- The `testResults` sub-schema of `AzureTestResults.body_schema`
(`fedora_cloud_tests_messages/fedora_cloud_tests_messages/publish.py`): an
object whose only allowed properties are the required `count` (integer) and
`tests` (object with string values). -/
def testResultsValid : Json → Bool
  | .obj fields =>
    (fields.all fun f => f.1 == "count" || f.1 == "tests") &&
    (match fields.lookup "count" with
     | Option.some (.int _) => true
     | _ => false) &&
    (match fields.lookup "tests" with
     | Option.some (.obj ts) => ts.all fun t => t.2.isStr
     | _ => false)
  | _ => false

/-- Validation against `AzureTestResults.body_schema`: the five string
fields and the three `list_of_*_tests` groups (each a `testResults`
object) are required and type-checked; extra properties are allowed at the
top level. -/
def azureTestResults_body_valid : Json → Bool
  | .obj fields =>
    (["architecture", "compose_id", "image_id", "image_definition_name",
      "image_resource_id"].all fun k =>
      match fields.lookup k with
      | Option.some j => j.isStr
      | Option.none => false) &&
    (["list_of_failed_tests", "list_of_skipped_tests",
      "list_of_passed_tests"].all fun k =>
      match fields.lookup k with
      | Option.some j => testResultsValid j
      | Option.none => false)
  | _ => false

/-- The outbound-message shape stated by the spec (§6): string fields
`architecture`, `compose_id`, `image_id`, `image_resource_id`, and three
required objects `passed_tests`, `failed_tests`, `skipped_tests`, each
`{count, tests}` with `count` equal to the number of `tests` entries.
Written from the spec's words for comparison with the coded schema. -/
def specOutboundBodyShape : Json → Bool
  | .obj fields =>
    (["architecture", "compose_id", "image_id", "image_resource_id"].all fun k =>
      match fields.lookup k with
      | Option.some j => j.isStr
      | Option.none => false) &&
    (["passed_tests", "failed_tests", "skipped_tests"].all fun k =>
      match fields.lookup k with
      | Option.some (.obj g) =>
        (match g.lookup "count", g.lookup "tests" with
         | Option.some (.int n), Option.some (.obj ts) =>
           (ts.all fun t => t.2.isStr) && n == (ts.length : Int)
         | _, _ => false)
      | _ => false)
  | _ => false

/-- `fedora_messaging.api.publish`: validates the body against
`AzureTestResults.body_schema` (raising `ValidationError` on mismatch) and
otherwise behaves as the transport dictates (`transport = some e` models the
transport raising `e`). -/
def api_publish (body : List (String × Json)) (transport : Option PyExc) :
    Except PyExc Unit :=
  if !azureTestResults_body_valid (.obj body) then .error .validationError
  else
    match transport with
    | Option.none => .ok ()
    | Option.some e => .error e

/-- Which exception classes the `except` clauses of `publish_test_results`
catch. -/
def publish_handlers_catch : PyExc → Bool
  | .validationError => true
  | .publishTimeout => true
  | .connectionException => true
  | .osError => true
  | .keyError => true
  | .typeError => true
  | .attributeError => false
  | .runtimeError => false

/-- The logged outcome of one `publish_test_results` call that did not
raise. -/
inductive PublishOutcome where
  | published (body : List (String × Json))
  | validationFailed
  | transportFailed
  | unexpectedFailed

/-- `AzurePublishedConsumer.publish_test_results`: builds the body (a
non-mapping message body makes `body.get` raise `AttributeError`, which no
handler catches), publishes it, and absorbs `ValidationError`
(schema), `PublishTimeout`/`ConnectionException` (transport) and
`OSError`/`KeyError`/`TypeError` (unexpected); any other exception
propagates to the caller. -/
def publish_test_results (m : Msg) (test_results : FinalResults)
    (transport : Option PyExc) : Except PyExc PublishOutcome :=
  match m.body with
  | .other => .error .attributeError
  | .dict es =>
    let body := build_result_message_body es test_results
    match api_publish body transport with
    | .ok _ => .ok (.published body)
    | .error e =>
      if publish_handlers_catch e then
        .ok (match e with
          | .validationError => .validationFailed
          | .publishTimeout => .transportFailed
          | .connectionException => .transportFailed
          | _ => .unexpectedFailed)
      else .error e

/-! ## Pipeline orchestrator (`azure_published_callback`) -/

/-- Terminal state of one `azure_published_callback` run in the model:
filtered out (no community gallery image), the `ret == 0` test failed (run
logged as a LISA failure, parsing never invoked), parsing returned `None`,
or parsing succeeded and `publish_test_results` was invoked with the
results. -/
inductive RunOutcome where
  | filtered
  | lisaFailed
  | parseFailed
  | publishAttempted (r : FinalResults)
deriving DecidableEq, Repr

/-- Python `int(b)` for a `bool` (`True == 1`, `False == 0`), used to model
the `ret == 0` comparison between the boolean returned by `trigger_lisa`
and the integer `0`. -/
def pyBoolInt (b : Bool) : Int :=
  if b then 1 else 0

/-- `AzurePublishedConsumer.azure_published_callback`: resolve the image
(early return when `None`), build `config_params` (with the ssh-keygen
result as `private_key`, `None` on failure), run `trigger_lisa`, and then
test `ret == 0` — where `ret` is the *boolean* returned by `trigger_lisa` —
parsing and publishing only in the `ret == 0` branch.  `parse_result` is
what `_parse_test_results` would return in that branch. -/
def azure_published_callback (region subscription_id : String) (m : Msg)
    (private_key : Option String) (log_path run_name : String)
    (proc : List String → ProcResult)
    (parse_result : Option FinalResults) : RunOutcome :=
  match get_community_gallery_image region m with
  | Option.none => .filtered
  | Option.some cgi =>
    let config_params : List (String × PyVal) :=
      [("subscription", .str subscription_id),
       ("private_key", match private_key with
         | Option.some p => .str p
         | Option.none => .none),
       ("log_path", .str log_path),
       ("run_name", .str run_name)]
    let ret := (trigger_lisa (.str region) (.str cgi) (.dict config_params) proc).ok
    if pyBoolInt ret == 0 then
      match parse_result with
      | Option.some r => .publishAttempted r
      | Option.none => .parseFailed
    else .lisaFailed

/-! ## Sample inputs used by the concrete theorems -/

/-- A report whose `failures` attribute (5) disagrees with its body (one
failing test case). -/
def xmlC2 : XmlElem :=
  .mk "testsuite" [("name", "s"), ("tests", "3"), ("failures", "5")]
    [.mk "testcase" [("name", "t")] [.mk "failure" [("message", "boom")] []]]

/-- The results the extractor computes for `xmlC2`. -/
def rC2 : FinalResults :=
  { total_tests := 3, passed := 0, failed := 5, skipped := 0, errors := 0
    failed_test_names := ["s.t"], skipped_test_names := [], passed_test_names := [] }

/-- A report whose attributes agree with its body: 2 tests, 1 failure. -/
def xmlC2w : XmlElem :=
  .mk "testsuite" [("name", "s"), ("tests", "2"), ("failures", "1")]
    [.mk "testcase" [("name", "a")] [.mk "failure" [] []],
     .mk "testcase" [("name", "b")] []]

/-- The results the extractor computes for `xmlC2w`. -/
def rC2w : FinalResults :=
  { total_tests := 2, passed := 1, failed := 1, skipped := 0, errors := 0
    failed_test_names := ["s.a"], skipped_test_names := [], passed_test_names := ["s.b"] }

/-- A report with two passing test cases sharing the identifier `s.t`. -/
def xmlC7 : XmlElem :=
  .mk "testsuite" [("name", "s"), ("tests", "2")]
    [.mk "testcase" [("name", "t")] [],
     .mk "testcase" [("name", "t")] []]

/-- A report whose three test cases have pairwise distinct identifiers. -/
def xmlC7w : XmlElem :=
  .mk "testsuite" [("name", "s"), ("tests", "3")]
    [.mk "testcase" [("name", "a")] [.mk "failure" [("message", "X")] []],
     .mk "testcase" [("name", "b")] [.mk "skipped" [("message", "Y")] []],
     .mk "testcase" [("name", "c")] []]

/-- Whether an `Except` result of `publish_test_results` is a normal return
(no exception reached the caller). -/
def exceptIsOk : Except PyExc PublishOutcome → Bool
  | .ok _ => true
  | .error _ => false

/-- A sample extracted result set (1 passed, 1 failed, 1 skipped). -/
def rSample : FinalResults :=
  { total_tests := 3, passed := 1, failed := 1, skipped := 1, errors := 0
    failed_test_names := ["s.a"], skipped_test_names := ["s.b"]
    passed_test_names := ["s.c"] }

/-- The Scenario-A notification body (supported image, valid version and
resource id, plus architecture/compose metadata). -/
def bodyA : List (String × PyVal) :=
  [("architecture", .str "x86_64"),
   ("compose_id", .str "Fedora-41-20250101.n.0"),
   ("image_definition_name", .str "Fedora-Cloud-41-x64"),
   ("image_version_name", .str "20250101.0"),
   ("image_resource_id",
    .str "/subscriptions/test-sub/resourceGroups/rg/providers/Microsoft.Compute/galleries/g")]

/-- The Scenario-A notification. -/
def msgScenarioA : Msg :=
  ⟨"org.fedoraproject.prod.fedora_image_uploader.published.v1.azure.x86_64", .dict bodyA⟩

/-- A body in exactly the shape the claim (and the schema module's own
tests) describe: four string identity fields and three
`passed_tests`/`failed_tests`/`skipped_tests` groups shaped
`{count, tests}` with `count = len(tests)`. -/
def specShapedExample : List (String × Json) :=
  [("architecture", .str "x86_64"),
   ("compose_id", .str "Fedora-41-20241001.n.0"),
   ("image_id", .str "Fedora-Cloud-41-x64"),
   ("image_resource_id",
    .str "/subscriptions/test/resourceGroups/test/providers/Microsoft.Compute/galleries/test"),
   ("failed_tests", .obj [("count", .int 0), ("tests", .obj [])]),
   ("skipped_tests", .obj [("count", .int 0), ("tests", .obj [])]),
   ("passed_tests", .obj [("count", .int 1),
     ("tests", .obj [("Provisioning.smoke_test", .str "Test passed in 46.198 seconds")])])]

/-! ## Helper lemmas -/

/-- Inversion for `_get_image_definition_name` on a dict body. -/
lemma get_image_definition_name_dict (topic : String) (es : List (String × PyVal)) (s : String) :
    get_image_definition_name ⟨topic, .dict es⟩ = Option.some s ↔
      dictGet es "image_definition_name" = .str s := by
  unfold get_image_definition_name
  cases h : dictGet es "image_definition_name" <;> simp [h]

/-- Every supported image definition name is a non-empty string. -/
lemma supported_ne_empty {s : String} (h : s ∈ SUPPORTED_FEDORA_VERSIONS) : s ≠ "" := by
  intro heq
  subst heq
  exact absurd h (by decide)

/-- String truthiness unfolds to non-emptiness. -/
lemma truthy_str (s : String) : truthy (.str s) = !(s == "") := rfl

/-! ## C4 -/

/-- **C4.** For every notification whose body carries a supported
`image_definition_name`, a non-empty `image_version_name`, and an
`image_resource_id` splitting into at least 3 `/`-delimited segments,
`get_community_gallery_image` returns exactly
`"<region>/<seg3>/<image_definition_name>/<image_version_name>"`, where
`seg3` is the 3rd `/`-delimited segment of the resource id (index 2), with
no other transformation. -/
theorem C4_resolver_format (region topic : String) (es : List (String × PyVal))
    (idn ivn rid : String)
    (h1 : dictGet es "image_definition_name" = .str idn)
    (h2 : idn ∈ SUPPORTED_FEDORA_VERSIONS)
    (h3 : dictGet es "image_version_name" = .str ivn)
    (h4 : ivn ≠ "")
    (h5 : dictGet es "image_resource_id" = .str rid)
    (h6 : 3 ≤ (pySplit rid).length) :
    get_community_gallery_image region ⟨topic, .dict es⟩ =
      Option.some (region ++ "/" ++ (pySplit rid).getD 2 "" ++ "/" ++ idn ++ "/" ++ ivn) := by
  have hidn : get_image_definition_name ⟨topic, .dict es⟩ = Option.some idn :=
    (get_image_definition_name_dict topic es idn).mpr h1
  have hidn_ne : idn ≠ "" := supported_ne_empty h2
  have hrid_ne : rid ≠ "" := by
    intro h
    subst h
    simp [pySplit, splitCharList] at h6
  unfold get_community_gallery_image
  rw [hidn]
  simp only [h3, h5, truthy_str]
  rw [if_neg (not_not_intro h2)]
  simp [hidn_ne, h4, hrid_ne, pyStr, Nat.not_lt.mpr h6]

/-- **C4 witness.** Scenario A: the resolver maps the sample notification to
`"westus3/test-sub/Fedora-Cloud-41-x64/20250101.0"`. -/
theorem C4_resolver_format_witness :
    get_community_gallery_image "westus3"
      ⟨"org.fedoraproject.prod.fedora_image_uploader.published.v1.azure.x",
       .dict [("image_definition_name", .str "Fedora-Cloud-41-x64"),
              ("image_version_name", .str "20250101.0"),
              ("image_resource_id",
               .str "/subscriptions/test-sub/resourceGroups/rg/providers/Microsoft.Compute/galleries/g")]⟩
      = Option.some "westus3/test-sub/Fedora-Cloud-41-x64/20250101.0" :=
  (C4_resolver_format "westus3"
    "org.fedoraproject.prod.fedora_image_uploader.published.v1.azure.x"
    [("image_definition_name", .str "Fedora-Cloud-41-x64"),
     ("image_version_name", .str "20250101.0"),
     ("image_resource_id",
      .str "/subscriptions/test-sub/resourceGroups/rg/providers/Microsoft.Compute/galleries/g")]
    "Fedora-Cloud-41-x64" "20250101.0"
    "/subscriptions/test-sub/resourceGroups/rg/providers/Microsoft.Compute/galleries/g"
    rfl (by decide) rfl (by decide) rfl (by decide)).trans (by decide)

/-! ## C5 -/

/-- **C5.** The resolver fails soft: whenever the body is not a mapping, or
the image definition name does not resolve to a supported value, or one of
the three identifying fields is missing/empty (falsy), or the resource id is
a string with fewer than 3 `/`-delimited segments, it returns `None` (and,
being a total function, never raises). -/
theorem C5_resolver_fails_soft (region : String) (m : Msg)
    (h :
      m.body = Body.other ∨
      (∀ s, get_image_definition_name m = Option.some s → s ∉ SUPPORTED_FEDORA_VERSIONS) ∨
      (∃ es, m.body = Body.dict es ∧
        (truthy (dictGet es "image_definition_name") = false ∨
         truthy (dictGet es "image_version_name") = false ∨
         truthy (dictGet es "image_resource_id") = false)) ∨
      (∃ es rid, m.body = Body.dict es ∧
        dictGet es "image_resource_id" = PyVal.str rid ∧
        (pySplit rid).length < 3)) :
    get_community_gallery_image region m = Option.none := by
  obtain ⟨topic, body⟩ := m
  rcases h with h | h | h | h
  · simp only at h
    subst h
    rfl
  · cases body with
    | other => rfl
    | dict es =>
      unfold get_community_gallery_image
      cases hg : get_image_definition_name ⟨topic, .dict es⟩ with
      | none => simp
      | some s =>
        have hs := h s hg
        simp [hs]
  · obtain ⟨es, hes, h⟩ := h
    simp only at hes
    subst hes
    unfold get_community_gallery_image
    cases hg : get_image_definition_name ⟨topic, .dict es⟩ with
    | none => simp
    | some s =>
      by_cases hsup : s ∈ SUPPORTED_FEDORA_VERSIONS
      · have hds : dictGet es "image_definition_name" = .str s :=
          (get_image_definition_name_dict topic es s).mp hg
        rcases h with h | h | h
        · exfalso
          rw [hds, truthy_str] at h
          simp at h
          exact supported_ne_empty hsup h
        · simp [if_neg (not_not_intro hsup), hds, truthy_str, supported_ne_empty hsup, h]
        · simp [if_neg (not_not_intro hsup), hds, truthy_str, supported_ne_empty hsup, h]
      · simp [hsup]
  · obtain ⟨es, rid, hes, hrid, hlen⟩ := h
    simp only at hes
    subst hes
    unfold get_community_gallery_image
    cases hg : get_image_definition_name ⟨topic, .dict es⟩ with
    | none => simp
    | some s =>
      by_cases hsup : s ∈ SUPPORTED_FEDORA_VERSIONS
      · have hds : dictGet es "image_definition_name" = .str s :=
          (get_image_definition_name_dict topic es s).mp hg
        by_cases hridt : truthy (dictGet es "image_resource_id") = false
        · simp [if_neg (not_not_intro hsup), hds, truthy_str, supported_ne_empty hsup, hridt]
        · by_cases hivnt : truthy (dictGet es "image_version_name") = false
          · simp [if_neg (not_not_intro hsup), hds, truthy_str, supported_ne_empty hsup, hivnt]
          · simp only [Bool.not_eq_false] at hridt hivnt
            simp [if_neg (not_not_intro hsup), hds, truthy_str, supported_ne_empty hsup,
              hridt, hivnt, hrid, hlen]
      · simp [hsup]

/-- **C5 witness.** A notification whose body is not a mapping resolves to
`None`. -/
theorem C5_resolver_fails_soft_witness :
    get_community_gallery_image "westus3" ⟨"topic", Body.other⟩ = Option.none :=
  C5_resolver_fails_soft "westus3" ⟨"topic", Body.other⟩ (Or.inl rfl)

/-! ## C6 -/

/-- **C6.** `trigger_lisa` validates before spawning: when `region` is not a
non-empty string, or (region valid) `community_gallery_image` is not a
non-empty string, or (both valid, config a dict) the `subscription` entry is
absent/falsy, or (additionally) the `private_key` entry is absent/falsy, it
returns failure immediately with exactly the field-specific log message and
no spawn attempt; and the four field-specific messages are pairwise
distinct. -/
theorem C6_fail_fast_validation (region cgi : PyVal) (config : Body)
    (proc : List String → ProcResult) :
    ((truthy region && region.isStr) = false →
      trigger_lisa region cgi config proc =
        ⟨false, ["Invalid region parameter: must be a non-empty string"], Option.none⟩) ∧
    ((truthy region && region.isStr) = true →
     (truthy cgi && cgi.isStr) = false →
      trigger_lisa region cgi config proc =
        ⟨false, ["Invalid community_gallery_image parameter: must be a non-empty string"],
         Option.none⟩) ∧
    (∀ cfg, config = Body.dict cfg →
     (truthy region && region.isStr) = true →
     (truthy cgi && cgi.isStr) = true →
     truthy (dictGet cfg "subscription") = false →
      trigger_lisa region cgi config proc =
        ⟨false, ["Missing required parameter: subscription"], Option.none⟩) ∧
    (∀ cfg, config = Body.dict cfg →
     (truthy region && region.isStr) = true →
     (truthy cgi && cgi.isStr) = true →
     truthy (dictGet cfg "subscription") = true →
     truthy (dictGet cfg "private_key") = false →
      trigger_lisa region cgi config proc =
        ⟨false, ["Missing required parameter: private_key"], Option.none⟩) ∧
    List.Pairwise (· ≠ ·)
      ["Invalid region parameter: must be a non-empty string",
       "Invalid community_gallery_image parameter: must be a non-empty string",
       "Missing required parameter: subscription",
       "Missing required parameter: private_key"] := by
  refine ⟨?_, ?_, ?_, ?_, by decide⟩
  · intro h
    simp [trigger_lisa, h]
  · intro h1 h2
    simp [trigger_lisa, h1, h2]
  · intro cfg hcfg h1 h2 h3
    subst hcfg
    simp [trigger_lisa, h1, h2, h3]
  · intro cfg hcfg h1 h2 h3 h4
    subst hcfg
    simp [trigger_lisa, h1, h2, h3, h4]

/-- **C6 witness.** An empty-string region is rejected with the
region-specific message and no spawn. -/
theorem C6_fail_fast_validation_witness :
    trigger_lisa (.str "") (.str "westus3/test-sub/Fedora-Cloud-41-x64/20250101.0")
        (Body.dict [("subscription", .str "sub"), ("private_key", .str "/tmp/id_rsa")])
        (fun _ => ProcResult.exited 0) =
      ⟨false, ["Invalid region parameter: must be a non-empty string"], Option.none⟩ :=
  (C6_fail_fast_validation (.str "") (.str "westus3/test-sub/Fedora-Cloud-41-x64/20250101.0")
    (Body.dict [("subscription", .str "sub"), ("private_key", .str "/tmp/id_rsa")])
    (fun _ => ProcResult.exited 0)).1 (by decide)

/-! ## C9 -/

/-- **C9.** `trigger_lisa` is total (it is a Lean function) and returns
`True` exactly when validation passes and the spawned child process exits
with return code 0; every other behaviour — invalid inputs, an exception
during spawn/streaming/wait (`ProcResult.raised`), or a non-zero exit —
yields `False`. -/
theorem C9_trigger_lisa_bool (region cgi : PyVal) (config : Body)
    (proc : List String → ProcResult) :
    (trigger_lisa region cgi config proc).ok = true ↔
      ((truthy region && region.isStr) = true ∧
       (truthy cgi && cgi.isStr) = true ∧
       ∃ cfg, config = Body.dict cfg ∧
         truthy (dictGet cfg "subscription") = true ∧
         truthy (dictGet cfg "private_key") = true ∧
         proc (lisaCommand (pyStr region) (pyStr cgi) cfg) = ProcResult.exited 0) := by
  unfold trigger_lisa
  cases h1 : truthy region && region.isStr with
  | false => simp [h1]
  | true =>
    cases h2 : truthy cgi && cgi.isStr with
    | false => simp [h2]
    | true =>
      cases config with
      | other => simp
      | dict cfg =>
        cases h3 : truthy (dictGet cfg "subscription") with
        | false => simp [h3]
        | true =>
          cases h4 : truthy (dictGet cfg "private_key") with
          | false => simp [h3, h4]
          | true =>
            cases h5 : proc (lisaCommand (pyStr region) (pyStr cgi) cfg) with
            | raised => simp [h3, h4, h5]
            | exited code =>
              by_cases h6 : code = 0
              · subst h6
                simp [h3, h4, h5]
              · simp [h3, h4, h5, h6]

/-! ## C10 -/

/-- **C10.** For every accepted report document, the computed `passed` count
equals `max(0, total_tests - failures - errors - skipped)` and is never
negative, even for mutually inconsistent counter attributes; and the counter
parser maps missing attributes and non-digit attribute values to 0 instead
of raising. -/
theorem C10_passed_clamped :
    (∀ (root : XmlElem) (c : Counters) (d : TestDetails),
      extract_test_counters root = Option.some c →
        (calculate_final_results c d).passed =
          max 0 ((c.total_tests : Int) - (c.failures : Int) - (c.errors : Int) -
            (c.skipped : Int)) ∧
        0 ≤ (calculate_final_results c d).passed) ∧
    (∀ (e : XmlElem) (k : String), e.attrib.lookup k = Option.none →
      pyCounter (e.attrGetD k "0") = 0) ∧
    (∀ (e : XmlElem) (k v : String), e.attrib.lookup k = Option.some v →
      isDigits v.data = false → pyCounter (e.attrGetD k "0") = 0) := by
  refine ⟨?_, ?_, ?_⟩
  · intro root c d _
    constructor
    · simp only [calculate_final_results]
      congr 1
      push_cast
      ring
    · exact le_max_left 0 _
  · intro e k h
    unfold XmlElem.attrGetD
    rw [h]
    decide
  · intro e k v h hd
    unfold XmlElem.attrGetD
    rw [h]
    simp [pyCounter, hd]

/-- **C10 witness.** A document whose attributes claim 2 tests but 5
failures and 1 skipped (and a non-digit `errors` attribute) yields
`passed = max(0, 2 - 5 - 0 - 1) = 0`, not a negative count. -/
theorem C10_passed_clamped_witness :
    (calculate_final_results ⟨2, 5, 0, 1⟩ ⟨[], [], []⟩).passed =
      max 0 ((2 : Int) - 5 - 0 - 1) ∧
    0 ≤ (calculate_final_results ⟨2, 5, 0, 1⟩ ⟨[], [], []⟩).passed :=
  C10_passed_clamped.1
    (.mk "testsuite" [("tests", "2"), ("failures", "5"), ("errors", "x"), ("skipped", "1")] [])
    ⟨2, 5, 0, 1⟩ ⟨[], [], []⟩ (by decide)

/-! ## C2 -/

/-- **C2 counterexample.** The extractor accepts `xmlC2` and reports a
`failed` count of 5 — taken from the document's `failures` attribute — while
the classified failed-test list has length 1, so
`count[failed] == len(tests[failed])` does not hold. -/
theorem C2_counterexample :
    parse_test_results xmlC2 = Option.some rC2 ∧
    rC2.failed ≠ rC2.failed_test_names.length := by
  exact ⟨by decide, by decide⟩

/-- **C2 amended.** For every accepted report, the published counts are
taken from the document's summary attributes — `failed = failures`,
`skipped = skipped`, `errors = errors`,
`passed = max(0, total - failures - errors - skipped)` — while the
per-status test-name lists are recomputed from the classified test cases;
`count[status] == len(tests[status])` therefore holds exactly when the
document attributes agree with the classified lists. -/
theorem C2_counts_from_attributes (root : XmlElem) (c : Counters) (r : FinalResults)
    (hc : extract_test_counters root = Option.some c)
    (hr : parse_test_results root = Option.some r) :
    r.failed = c.failures ∧ r.skipped = c.skipped ∧ r.errors = c.errors ∧
    r.passed = max 0 ((c.total_tests : Int) - (c.failures : Int) - (c.errors : Int) -
      (c.skipped : Int)) ∧
    r.failed_test_names = (extract_test_details root).failed ∧
    r.skipped_test_names = (extract_test_details root).skipped ∧
    r.passed_test_names = (extract_test_details root).passed ∧
    (c.failures = (extract_test_details root).failed.length →
      r.failed = r.failed_test_names.length) ∧
    (c.skipped = (extract_test_details root).skipped.length →
      r.skipped = r.skipped_test_names.length) := by
  have hp : parse_test_results root =
      Option.some (calculate_final_results c (extract_test_details root)) := by
    unfold parse_test_results
    rw [hc]
  rw [hp] at hr
  injection hr with hr
  subst hr
  refine ⟨rfl, rfl, rfl, ?_, rfl, rfl, rfl, ?_, ?_⟩
  · simp only [calculate_final_results]
    congr 1
    push_cast
    ring
  · intro h
    simpa [calculate_final_results] using h
  · intro h
    simpa [calculate_final_results] using h

/-- **C2 witness.** On a consistent report (`xmlC2w`), the amended statement
instantiates: the failed count comes from the `failures` attribute and here
coincides with the classified list's length. -/
theorem C2_counts_from_attributes_witness :
    rC2w.failed = 1 ∧
    rC2w.failed_test_names = (extract_test_details xmlC2w).failed ∧
    rC2w.failed = rC2w.failed_test_names.length := by
  have h := C2_counts_from_attributes xmlC2w ⟨2, 1, 0, 0⟩ rC2w (by decide) (by decide)
  exact ⟨h.1, h.2.2.2.2.1, h.2.2.2.2.2.2.2.1 (by decide)⟩

/-! ## C7 -/

/-- `detailsStep` appends the identifier to the list selected by
`classifyCase`. -/
lemma detailsStep_classify (suite : XmlElem) (acc : TestDetails) (tc : XmlElem) :
    detailsStep suite acc tc =
      match classifyCase tc with
      | .failed => { acc with failed := acc.failed ++ [testIdentifier suite tc] }
      | .skipped => { acc with skipped := acc.skipped ++ [testIdentifier suite tc] }
      | .passed => { acc with passed := acc.passed ++ [testIdentifier suite tc] } := by
  unfold detailsStep classifyCase
  by_cases h1 : (tc.findChild "failure").isSome
  · simp [h1]
  · by_cases h2 : (tc.findChild "error").isSome
    · simp [h1, h2]
    · by_cases h3 : (tc.findChild "skipped").isSome
      · simp [h1, h2, h3]
      · simp [h1, h2, h3]

/-- The inner loop of `_extract_test_details` over one suite's test cases,
characterised as filters of the classified case list. -/
lemma foldl_detailsStep (suite : XmlElem) (tcs : List XmlElem) (acc : TestDetails) :
    tcs.foldl (detailsStep suite) acc =
      ⟨acc.passed ++
        (((tcs.map fun tc => (testIdentifier suite tc, classifyCase tc)).filter
          fun x => x.2 == TestStatus.passed).map Prod.fst),
       acc.failed ++
        (((tcs.map fun tc => (testIdentifier suite tc, classifyCase tc)).filter
          fun x => x.2 == TestStatus.failed).map Prod.fst),
       acc.skipped ++
        (((tcs.map fun tc => (testIdentifier suite tc, classifyCase tc)).filter
          fun x => x.2 == TestStatus.skipped).map Prod.fst)⟩ := by
  induction tcs generalizing acc with
  | nil => simp
  | cons tc tcs ih =>
    rw [List.foldl_cons, ih, detailsStep_classify]
    cases h : classifyCase tc <;>
      simp [h, List.filter_cons, List.append_assoc]

/-- `_extract_test_details` output, characterised as filters of the
document's classified case list. -/
lemma extract_test_details_eq (root : XmlElem) :
    extract_test_details root =
      ⟨((docClassified root).filter fun x => x.2 == TestStatus.passed).map Prod.fst,
       ((docClassified root).filter fun x => x.2 == TestStatus.failed).map Prod.fst,
       ((docClassified root).filter fun x => x.2 == TestStatus.skipped).map Prod.fst⟩ := by
  have h : ∀ (suites : List XmlElem) (acc : TestDetails),
      suites.foldl (fun acc suite => (suite.findall "testcase").foldl (detailsStep suite) acc)
          acc =
        ⟨acc.passed ++
          (((suites.flatMap fun s =>
              (s.findall "testcase").map fun tc => (testIdentifier s tc, classifyCase tc)).filter
            fun x => x.2 == TestStatus.passed).map Prod.fst),
         acc.failed ++
          (((suites.flatMap fun s =>
              (s.findall "testcase").map fun tc => (testIdentifier s tc, classifyCase tc)).filter
            fun x => x.2 == TestStatus.failed).map Prod.fst),
         acc.skipped ++
          (((suites.flatMap fun s =>
              (s.findall "testcase").map fun tc => (testIdentifier s tc, classifyCase tc)).filter
            fun x => x.2 == TestStatus.skipped).map Prod.fst)⟩ := by
    intro suites
    induction suites with
    | nil => intro acc; simp
    | cons s ss ih =>
      intro acc
      rw [List.foldl_cons, foldl_detailsStep, ih]
      simp [List.flatMap_cons, List.filter_append, List.map_append, List.append_assoc]
  unfold extract_test_details docClassified
  rw [h]
  simp

/-- **C7 counterexample.** On `xmlC7`, the extractor yields the passed-entry
list `["s.t", "s.t"]`, which contains a duplicate, refuting the
no-duplicates part of the round-trip claim. -/
theorem C7_counterexample :
    (extract_test_details xmlC7).passed = ["s.t", "s.t"] ∧
    ¬ (extract_test_details xmlC7).passed.Nodup := by
  exact ⟨by decide, by decide⟩

/-- **C7 amended.** For every report document with N passed, F failed
(`failure` or `error` child) and S skipped test cases, the extractor yields
exactly N/F/S entries — the identifiers (`suiteName.testName`) of the cases
classified with each status, in document order; the entries are free of
duplicates provided the document's `suite.test` identifiers are pairwise
distinct. -/
theorem C7_details_round_trip (root : XmlElem) :
    (extract_test_details root).passed.length = statusCount root .passed ∧
    (extract_test_details root).failed.length = statusCount root .failed ∧
    (extract_test_details root).skipped.length = statusCount root .skipped ∧
    (extract_test_details root).passed =
      ((docClassified root).filter fun x => x.2 == TestStatus.passed).map Prod.fst ∧
    (extract_test_details root).failed =
      ((docClassified root).filter fun x => x.2 == TestStatus.failed).map Prod.fst ∧
    (extract_test_details root).skipped =
      ((docClassified root).filter fun x => x.2 == TestStatus.skipped).map Prod.fst ∧
    ((allIdentifiers root).Nodup →
      (extract_test_details root).passed.Nodup ∧
      (extract_test_details root).failed.Nodup ∧
      (extract_test_details root).skipped.Nodup) := by
  rw [extract_test_details_eq root]
  refine ⟨?_, ?_, ?_, rfl, rfl, rfl, ?_⟩
  · rw [List.length_map, statusCount, List.countP_eq_length_filter]
  · rw [List.length_map, statusCount, List.countP_eq_length_filter]
  · rw [List.length_map, statusCount, List.countP_eq_length_filter]
  · intro hnd
    unfold allIdentifiers at hnd
    refine ⟨?_, ?_, ?_⟩ <;>
      exact hnd.sublist ((List.filter_sublist _).map Prod.fst)

/-- **C7 witness.** On `xmlC7w`, whose identifiers are pairwise distinct,
the three extracted lists are duplicate-free. -/
theorem C7_details_round_trip_witness :
    (extract_test_details xmlC7w).passed.Nodup ∧
    (extract_test_details xmlC7w).failed.Nodup ∧
    (extract_test_details xmlC7w).skipped.Nodup :=
  (C7_details_round_trip xmlC7w).2.2.2.2.2.2 (by decide)

/-! ## C8 -/

/-- Characterisation of `publish_test_results` on a mapping body. -/
lemma publish_test_results_dict (topic : String) (es : List (String × PyVal))
    (r : FinalResults) (t : Option PyExc) :
    publish_test_results ⟨topic, .dict es⟩ r t =
      if azureTestResults_body_valid (.obj (build_result_message_body es r)) = false then
        Except.ok PublishOutcome.validationFailed
      else
        match t with
        | Option.none => Except.ok (.published (build_result_message_body es r))
        | Option.some e =>
          if publish_handlers_catch e then
            Except.ok (match e with
              | .validationError => .validationFailed
              | .publishTimeout => .transportFailed
              | .connectionException => .transportFailed
              | _ => .unexpectedFailed)
          else Except.error e := by
  unfold publish_test_results api_publish
  by_cases hv : azureTestResults_body_valid (.obj (build_result_message_body es r)) = true
  · simp only [hv, Bool.not_true, Bool.false_eq_true, if_false, if_neg]
    cases t with
    | none => rfl
    | some e => rfl
  · rw [Bool.not_eq_true] at hv
    simp [hv, publish_handlers_catch]

/-- **C8 counterexample.** A notification whose body is not a mapping makes
`publish_test_results` raise `AttributeError` (from `body.get`) to its
caller: no handler catches it. -/
theorem C8_counterexample :
    publish_test_results ⟨"topic", Body.other⟩ rSample Option.none =
      Except.error PyExc.attributeError := rfl

/-- **C8 amended.** `publish_test_results` returns normally — absorbing the
failure after logging — for every mapping-body notification whenever the
publish call raises nothing or an exception among the handled classes
(`ValidationError`, `PublishTimeout`, `ConnectionException`, `OSError`,
`KeyError`, `TypeError`); any exception that does reach the caller is
outside the handled classes; a non-mapping body raises `AttributeError`;
and a `ValidationError` is always absorbed and logged as a validation
failure.  No retry exists in the control flow (the publish call is consulted
exactly once). -/
theorem C8_publish_absorbs_known (m : Msg) (r : FinalResults) (t : Option PyExc) :
    (∀ es, m.body = Body.dict es →
      (∀ e, t = Option.some e → publish_handlers_catch e = true) →
      exceptIsOk (publish_test_results m r t) = true) ∧
    (∀ e, publish_test_results m r t = Except.error e → publish_handlers_catch e = false) ∧
    (m.body = Body.other → publish_test_results m r t = Except.error PyExc.attributeError) ∧
    (t = Option.some PyExc.validationError → ∀ es, m.body = Body.dict es →
      publish_test_results m r t = Except.ok PublishOutcome.validationFailed) := by
  obtain ⟨topic, body⟩ := m
  cases body with
  | other =>
    refine ⟨?_, ?_, ?_, ?_⟩
    · intro es hes
      exact absurd hes (by simp)
    · intro e he
      have h0 : publish_test_results ⟨topic, Body.other⟩ r t =
          Except.error PyExc.attributeError := rfl
      rw [h0] at he
      injection he with he
      subst he
      rfl
    · intro _
      rfl
    · intro _ es hes
      exact absurd hes (by simp)
  | dict es =>
    rw [show (Msg.mk topic (Body.dict es)).body = Body.dict es from rfl]
    refine ⟨?_, ?_, ?_, ?_⟩
    · intro es' hes' ht
      injection hes' with hes'
      subst hes'
      rw [publish_test_results_dict]
      by_cases hv : azureTestResults_body_valid (.obj (build_result_message_body es r)) = false
      · rw [if_pos hv]
        rfl
      · rw [if_neg hv]
        cases t with
        | none => rfl
        | some e =>
          have hc := ht e rfl
          simp [hc, exceptIsOk]
    · intro e he
      rw [publish_test_results_dict] at he
      by_cases hv : azureTestResults_body_valid (.obj (build_result_message_body es r)) = false
      · rw [if_pos hv] at he
        exact absurd he (by simp)
      · rw [if_neg hv] at he
        cases t with
        | none => exact absurd he (by simp)
        | some e' =>
          by_cases hc : publish_handlers_catch e' = true
          · simp [hc] at he
          · simp [hc] at he
            rw [← he]
            simpa using hc
    · intro h
      exact absurd h (by simp)
    · intro ht es' hes'
      injection hes' with hes'
      subst hes'
      subst ht
      rw [publish_test_results_dict]
      by_cases hv : azureTestResults_body_valid (.obj (build_result_message_body es r)) = false
      · rw [if_pos hv]
      · rw [if_neg hv]
        simp [publish_handlers_catch]

/-- **C8 witness.** For a mapping body and a timing-out transport, the call
returns normally. -/
theorem C8_publish_absorbs_known_witness :
    exceptIsOk (publish_test_results ⟨"topic", Body.dict [("architecture", .str "x86_64")]⟩
      rSample (Option.some PyExc.publishTimeout)) = true :=
  (C8_publish_absorbs_known ⟨"topic", Body.dict [("architecture", .str "x86_64")]⟩
      rSample (Option.some PyExc.publishTimeout)).1
    [("architecture", .str "x86_64")] rfl (by intro e he; injection he with he; subst he; rfl)

/-! ## C1 -/

/-- **C1.** `azure_published_callback` compares the *boolean* returned by
`trigger_lisa` against the integer 0 (`ret == 0`), which inverts the claimed
behaviour: when the child process exits with code 0 (`trigger_lisa` returns
`True`, and `True == 0` is false in Python) the run is logged as a LISA
failure and `_parse_test_results` is never invoked; when the child exits
with code 1 (`trigger_lisa` returns `False`, and `False == 0` is true)
parsing is attempted and, on success, publishing is invoked. -/
theorem C1_callback_inverts_exit_code :
    azure_published_callback "westus3" "test-sub-id" msgScenarioA (Option.some "/tmp/id_rsa")
        "/tmp/lisa_logs" "2025-01-01T00:00Z" (fun _ => .exited 0) (Option.some rSample)
      = RunOutcome.lisaFailed ∧
    azure_published_callback "westus3" "test-sub-id" msgScenarioA (Option.some "/tmp/id_rsa")
        "/tmp/lisa_logs" "2025-01-01T00:00Z" (fun _ => .exited 1) (Option.some rSample)
      = RunOutcome.publishAttempted rSample := by
  exact ⟨by decide, by decide⟩

/-! ## C3 -/

/-- **C3.** The built result body does not have the claimed shape: it fails
both the shape stated by the spec (no `passed_tests`/`failed_tests`/
`skipped_tests` objects) and the repository's own coded schema (whose
`list_of_*_tests` groups must be `{count, tests}` objects, while the builder
emits plain string arrays), so publishing it is absorbed as a validation
failure and nothing is ever published; conversely a body in the spec's
shape — the one the schema module's own tests treat as valid — fails the
coded schema too. -/
theorem C3_schema_divergence :
    azureTestResults_body_valid (.obj (build_result_message_body bodyA rSample)) = false ∧
    specOutboundBodyShape (.obj (build_result_message_body bodyA rSample)) = false ∧
    publish_test_results msgScenarioA rSample Option.none =
      Except.ok PublishOutcome.validationFailed ∧
    specOutboundBodyShape (.obj specShapedExample) = true ∧
    azureTestResults_body_valid (.obj specShapedExample) = false := by
  exact ⟨rfl, rfl, rfl, rfl, rfl⟩

end FedoraCloudTests
